import Mathlib

/-!
Verification development for the webhook signature verification subsystem
of a payments SDK (file `src/Webhooks.ts`).

The TypeScript source is shallowly embedded: JavaScript strings become Lean
String, JavaScript numbers that can only hold integers or NaN become
Option Int (none standing for NaN), values that can be undefined become
Option, thrown errors become `Except WebhookError`, and the current clock
reading `Math.floor(Date.now() / 1000)` becomes an explicit `nowSeconds`
argument. Promises are modelled by their resolved values, so the async
crypto method is a plain function.
-/

namespace Webhooks

/-- Error kinds of the thrown `StripeError` / `StripeSignatureVerificationError`
values in the source. Only the kind of the error is modelled; the `message`
and `detail` payloads attached in the source are diagnostic data that no
control flow inspects. -/
inductive WebhookError where
  /-- "Unable to extract timestamp and signatures from header" -/
  | malformedHeader
  /-- "No signatures found with expected scheme" -/
  | noSignatures
  /-- "No signatures found matching the expected signature for payload..." -/
  | signatureMismatch
  /-- "Timestamp outside the tolerance zone" -/
  | timestampOutsideTolerance
  deriving DecidableEq, Repr

/-- The `StripeCryptoProvider` capability: `computeHMACSignature(data, secret)`
and its async variant. The async variant is modelled by the resolved value of
the promise it returns. -/
structure StripeCryptoProvider where
  computeHMACSignature : String → String → String
  computeHMACSignatureAsync : String → String → String

/-- `WebhookParsedHeader` from the source: `signatures` is the array the
reduction pushes onto (an entry is `none` when the source pushes the
JavaScript value `undefined`, i.e. when a scheme token has no `=`), and
`timestamp` is the JavaScript number field (`none` standing for NaN). -/
structure WebhookParsedHeader where
  signatures : List (Option String)
  timestamp : Option Int
  deriving DecidableEq, Repr

/-- `WebhookParsedEvent` from the source. -/
structure WebhookParsedEvent where
  details : WebhookParsedHeader
  decodedPayload : String
  decodedHeader : String
  deriving DecidableEq, Repr

/-- Splitting a character list at every occurrence of `sep`. This is the
semantics of JavaScript `String.prototype.split` for a one-character
separator and no limit, which is how `split` is used in the source
(separators "," and "="); in particular the empty string splits to one
empty piece. -/
def splitOnCharList (sep : Char) : List Char → List (List Char)
  | [] => [[]]
  | c :: cs =>
    match splitOnCharList sep cs with
    | [] => [[]]
    | r :: rs => if c = sep then [] :: r :: rs else (c :: r) :: rs

/-- JavaScript whitespace characters skipped by `parseInt`. -/
def isJsWhitespace (c : Char) : Bool :=
  c = ' ' || c = '\t' || c = '\n' || c = '\r' || c = '\x0b' || c = '\x0c'

/-- Value of a decimal digit string, most significant digit first. -/
def digitsToNat (ds : List Char) : Nat :=
  ds.foldl (fun a c => a * 10 + (c.toNat - 48)) 0

/-- Shared tail of `parseInt(s, 10)`: the longest leading run of decimal
digits, NaN (`none`) when that run is empty. -/
def parseIntCore (cs : List Char) (neg : Bool) : Option Int :=
  let ds := cs.takeWhile Char.isDigit
  if ds.isEmpty then none
  else some (if neg then -(digitsToNat ds : Int) else (digitsToNat ds : Int))

/-- JavaScript `parseInt(s, 10)`: skip leading whitespace, consume an
optional sign, then the longest run of decimal digits; NaN (`none`) when no
digit follows. -/
def jsParseInt10 (s : String) : Option Int :=
  match s.data.dropWhile isJsWhitespace with
  | [] => none
  | c :: rest =>
    if c = '-' then parseIntCore rest true
    else if c = '+' then parseIntCore rest false
    else parseIntCore (c :: rest) false

/-- `parseInt(v, 10)` where `v` may be the JavaScript value `undefined`
(as `kv[1]` is when a token contains no `=`): `parseInt(undefined, 10)`
coerces `undefined` to the string "undefined" and yields NaN. -/
def jsParseIntOpt (s : Option String) : Option Int :=
  match s with
  | none => none
  | some str => jsParseInt10 str

/-- Decimal digit list of a natural number, most significant first, via a
fuel argument so the definition is structurally recursive (the fuel `n + 1`
always suffices since the argument shrinks by a factor of ten each step). -/
def natToDigitsAux : Nat → Nat → List Char
  | 0, _ => []
  | fuel + 1, n =>
    if n < 10 then [Nat.digitChar n]
    else natToDigitsAux fuel (n / 10) ++ [Nat.digitChar (n % 10)]

/-- Decimal digit list of a natural number, most significant first. -/
def natToDigits (n : Nat) : List Char := natToDigitsAux (n + 1) n

/-- Decimal representation of an integer: the JavaScript number-to-string
coercion performed by `'t=' + opts.timestamp` and by the template literal
in `makeHMACContent` for integral values. -/
def intRepr (n : Int) : String :=
  if n < 0 then "-" ++ String.mk (natToDigits n.natAbs)
  else String.mk (natToDigits n.natAbs)

/-- String coercion of the modelled JavaScript number: an integer prints in
decimal and NaN prints as "NaN". -/
def jsNumToString (n : Option Int) : String :=
  match n with
  | none => "NaN"
  | some k => intRepr k

/-- `signature.EXPECTED_SCHEME` from the source. -/
def EXPECTED_SCHEME : String := "v1"

/-- `Webhook.DEFAULT_TOLERANCE` from the source (300 seconds). -/
def DEFAULT_TOLERANCE : Int := 300

/-- Modelled from the spec: `utils.secureCompare` lives in `utils`, which is
not among the provided source files. Per the spec (section 4.2 step 6 and
section 9) it is a constant-time byte-wise comparison that treats
unequal-length strings as simply unequal, so functionally it decides
equality of the two strings. The candidate may be the JavaScript value
`undefined` (a scheme token without `=`); an undefined candidate never
equals the computed signature string. -/
def secureCompare (a : String) (b : Option String) : Bool :=
  match b with
  | none => false
  | some s => a = s

/-- One step of the reduction inside `parseHeader`: split the token on `=`
(every occurrence, as JavaScript `split` does), overwrite `timestamp` when
`kv[0]` is "t", and push `kv[1]` when `kv[0]` equals the scheme. Tokens are
carried as character lists; `kv.get? 1` is `none` exactly when the token has
no `=`, i.e. when `kv[1]` is `undefined` in the source. -/
def parseHeaderStep (scheme : String) (accum : WebhookParsedHeader) (item : List Char) :
    WebhookParsedHeader :=
  let kv := splitOnCharList '=' item
  let accum1 :=
    if kv[0]? = some ['t'] then
      { accum with timestamp := jsParseIntOpt (kv[1]?.map String.mk) }
    else accum
  if kv[0]? = some scheme.data then
    { accum1 with signatures := accum1.signatures ++ [kv[1]?.map String.mk] }
  else accum1

/-- `parseHeader` from the source: split the header on `,` and reduce over
the tokens starting from `{timestamp: -1, signatures: []}`. The source also
returns null when `header` is not a string; that defensive branch is
unreachable here because the embedded header is always a string. -/
def parseHeader (header : String) (scheme : String) : WebhookParsedHeader :=
  (splitOnCharList ',' header.data).foldl (parseHeaderStep scheme)
    { signatures := [], timestamp := some (-1) }

/-- `makeHMACContent` from the source: the template literal
`` `${details.timestamp}.${payload}` ``. -/
def makeHMACContent (payload : String) (details : WebhookParsedHeader) : String :=
  jsNumToString details.timestamp ++ "." ++ payload

/-- `parseEventDetails` from the source, for string payload and header (the
Buffer decode is the identity on already-decoded text, and the array-header
branch is outside the embedded types). Throws become `Except.error`. -/
def parseEventDetails (encodedPayload : String) (encodedHeader : String)
    (expectedScheme : String) : Except WebhookError WebhookParsedEvent :=
  let details := parseHeader encodedHeader expectedScheme
  if details.timestamp = some (-1) then
    .error .malformedHeader
  else if details.signatures.length = 0 then
    .error .noSignatures
  else
    .ok { details := details, decodedPayload := encodedPayload,
          decodedHeader := encodedHeader }

/-- The truthiness test
`!!details.signatures.filter(utils.secureCompare.bind(utils, expectedSignature)).length`
from `validateComputedSignature`: whether at least one candidate signature
compares equal to the computed one. -/
def signatureFound (details : WebhookParsedHeader) (expectedSignature : String) : Bool :=
  decide ((details.signatures.filter (secureCompare expectedSignature)).length ≠ 0)

/-- The replay-window test `tolerance > 0 && timestampAge > tolerance` from
`validateComputedSignature`, where
`timestampAge = Math.floor(Date.now() / 1000) - details.timestamp`. The age
is NaN when the timestamp is NaN, and a NaN age compares false against the
tolerance. -/
def toleranceExceeded (details : WebhookParsedHeader) (tolerance : Int)
    (nowSeconds : Int) : Bool :=
  decide (tolerance > 0) &&
    (match details.timestamp.map (fun t => nowSeconds - t) with
     | none => false
     | some a => decide (a > tolerance))

/-- `validateComputedSignature` from the source, with its two boolean
subexpressions named by the two definitions above. The `payload` and
`header` parameters of the source feed only the diagnostic `detail` of the
thrown errors and are omitted. -/
def validateComputedSignature (details : WebhookParsedHeader)
    (expectedSignature : String) (tolerance : Int) (nowSeconds : Int) :
    Except WebhookError Bool :=
  if !(signatureFound details expectedSignature) then
    .error .signatureMismatch
  else if toleranceExceeded details tolerance nowSeconds then
    .error .timestampOutsideTolerance
  else
    .ok true

/-- `signature.verifyHeader` from the source: parse, compute the HMAC via
the provider, validate, return true. The caller always supplies the
provider here, so the `getNodeCryptoProvider()` fallback is not taken. -/
def verifyHeader (encodedPayload : String) (encodedHeader : String) (secret : String)
    (tolerance : Int) (cryptoProvider : StripeCryptoProvider) (nowSeconds : Int) :
    Except WebhookError Bool :=
  match parseEventDetails encodedPayload encodedHeader EXPECTED_SCHEME with
  | .error e => .error e
  | .ok ev =>
    let expectedSignature :=
      cryptoProvider.computeHMACSignature
        (makeHMACContent ev.decodedPayload ev.details) secret
    match validateComputedSignature ev.details expectedSignature tolerance nowSeconds with
    | .error e => .error e
    | .ok _ => .ok true

/-- `signature.verifyHeaderAsync` from the source: identical to
`verifyHeader` except that the HMAC comes from the async provider method
(modelled by its resolved value) and the result of
`validateComputedSignature` is returned directly. -/
def verifyHeaderAsync (encodedPayload : String) (encodedHeader : String) (secret : String)
    (tolerance : Int) (cryptoProvider : StripeCryptoProvider) (nowSeconds : Int) :
    Except WebhookError Bool :=
  match parseEventDetails encodedPayload encodedHeader EXPECTED_SCHEME with
  | .error e => .error e
  | .ok ev =>
    let expectedSignature :=
      cryptoProvider.computeHMACSignatureAsync
        (makeHMACContent ev.decodedPayload ev.details) secret
    validateComputedSignature ev.details expectedSignature tolerance nowSeconds

/-- JavaScript `a || b` for the tolerance argument of the event
constructors: `a` is `none` for null or undefined, and the number 0 is
falsy. (NaN, the one other falsy number, cannot reach this argument in the
model since tolerances are integers.) -/
def jsOrNum (a : Option Int) (b : Int) : Int :=
  match a with
  | none => b
  | some n => if n = 0 then b else n

/-- `Webhook.constructEvent` from the source: verify with
`tolerance || DEFAULT_TOLERANCE`, then `JSON.parse(payload)`. JSON decoding
is outside the subsystem; the model returns the raw payload that the source
would hand to `JSON.parse`. -/
def constructEvent (payload : String) (header : String) (secret : String)
    (tolerance : Option Int) (cryptoProvider : StripeCryptoProvider)
    (nowSeconds : Int) : Except WebhookError String :=
  match verifyHeader payload header secret (jsOrNum tolerance DEFAULT_TOLERANCE)
      cryptoProvider nowSeconds with
  | .error e => .error e
  | .ok _ => .ok payload

/-- `Webhook.constructEventAsync` from the source, modelled like
`constructEvent` over the async verifier. -/
def constructEventAsync (payload : String) (header : String) (secret : String)
    (tolerance : Option Int) (cryptoProvider : StripeCryptoProvider)
    (nowSeconds : Int) : Except WebhookError String :=
  match verifyHeaderAsync payload header secret (jsOrNum tolerance DEFAULT_TOLERANCE)
      cryptoProvider nowSeconds with
  | .error e => .error e
  | .ok _ => .ok payload

/-- JavaScript `a || b` for the optional string options of the test-header
generator: `a` is `none` for an absent option and the empty string is
falsy. -/
def jsOrStr (a : Option String) (b : String) : String :=
  match a with
  | none => b
  | some s => if s = "" then b else s

/-- The options record of `generateTestHeaderString`. `scheme` and
`signature` may be absent (`none`); the crypto provider is carried in the
record as in the source (the `getNodeCryptoProvider()` fallback is not
modelled, a provider is always present). -/
structure WebhookTestHeaderOptions where
  timestamp : Int
  payload : String
  secret : String
  scheme : Option String := none
  signature : Option String := none
  cryptoProvider : StripeCryptoProvider

/-- `generateTestHeaderString` from the source:
`opts.timestamp = Math.floor(opts.timestamp) || Math.floor(Date.now() / 1000)`
(`Math.floor` is the identity on the integer model, 0 is the falsy integer),
the scheme defaults to `EXPECTED_SCHEME`, the signature defaults to the HMAC
of `timestamp + '.' + payload`, and the header is the comma join of
`t=timestamp` and `scheme=signature`. The clock is the explicit
`nowSeconds`. -/
def generateTestHeaderString (opts : WebhookTestHeaderOptions) (nowSeconds : Int) :
    String :=
  let timestamp : Int := if opts.timestamp = 0 then nowSeconds else opts.timestamp
  let scheme := jsOrStr opts.scheme EXPECTED_SCHEME
  let sig := jsOrStr opts.signature
    (opts.cryptoProvider.computeHMACSignature
      (intRepr timestamp ++ "." ++ opts.payload) opts.secret)
  "t=" ++ intRepr timestamp ++ "," ++ (scheme ++ "=" ++ sig)

/-- A crypto provider whose two methods are the same constant function,
used for concrete evaluations. -/
def cpConstSig : StripeCryptoProvider :=
  { computeHMACSignature := fun _ _ => "sig"
    computeHMACSignatureAsync := fun _ _ => "sig" }

/-- A crypto provider computing a constant string that contains a comma. -/
def cpCommaSig : StripeCryptoProvider :=
  { computeHMACSignature := fun _ _ => "si,g"
    computeHMACSignatureAsync := fun _ _ => "si,g" }

/-! ### Helper lemmas about the character-level splitter -/

theorem splitOnCharList_ne_nil (sep : Char) : ∀ l : List Char, splitOnCharList sep l ≠ []
  | [] => by simp [splitOnCharList]
  | c :: cs => by
    simp only [splitOnCharList]
    rcases splitOnCharList sep cs with _ | ⟨r, rs⟩
    · simp
    · by_cases hc : c = sep <;> simp [hc]

theorem splitOnCharList_eq_single (sep : Char) :
    ∀ l : List Char, sep ∉ l → splitOnCharList sep l = [l]
  | [], _ => rfl
  | c :: cs, h => by
    have hc : ¬(c = sep) := fun e => h (e ▸ List.mem_cons_self c cs)
    have ih := splitOnCharList_eq_single sep cs (fun m => h (List.mem_cons_of_mem c m))
    simp only [splitOnCharList, ih, if_neg hc]

theorem splitOnCharList_append (sep : Char) :
    ∀ (xs : List Char) (ys : List Char), sep ∉ xs →
      splitOnCharList sep (xs ++ sep :: ys) = xs :: splitOnCharList sep ys
  | [], ys, _ => by
    simp only [List.nil_append, splitOnCharList]
    rcases h : splitOnCharList sep ys with _ | ⟨r, rs⟩
    · exact absurd h (splitOnCharList_ne_nil sep ys)
    · simp
  | x :: xs, ys, h => by
    have hx : ¬(x = sep) := fun e => h (e ▸ List.mem_cons_self x xs)
    have ih := splitOnCharList_append sep xs ys (fun m => h (List.mem_cons_of_mem x m))
    show splitOnCharList sep (x :: (xs ++ sep :: ys)) = (x :: xs) :: splitOnCharList sep ys
    simp only [splitOnCharList]
    rw [ih]
    simp [if_neg hx]

/-! ### Helper lemmas about decimal digits and parseInt -/

theorem digitChar_isDigit {d : Nat} (hd : d < 10) : (Nat.digitChar d).isDigit = true := by
  interval_cases d <;> decide

theorem digitChar_toNat {d : Nat} (hd : d < 10) : (Nat.digitChar d).toNat = 48 + d := by
  interval_cases d <;> decide

theorem digitsToNat_append_digit (ds : List Char) (c : Char) :
    digitsToNat (ds ++ [c]) = digitsToNat ds * 10 + (c.toNat - 48) := by
  simp [digitsToNat, List.foldl_append]

theorem natToDigitsAux_spec :
    ∀ (fuel n : Nat), n < fuel →
      (∀ c ∈ natToDigitsAux fuel n, c.isDigit = true) ∧
        digitsToNat (natToDigitsAux fuel n) = n ∧ natToDigitsAux fuel n ≠ []
  | 0, n, h => absurd h (Nat.not_lt_zero n)
  | fuel + 1, n, h => by
    simp only [natToDigitsAux]
    by_cases h10 : n < 10
    · refine ⟨?_, ?_, by simp [if_pos h10]⟩
      · intro c hc
        rw [if_pos h10] at hc
        rcases List.mem_singleton.mp hc with rfl
        exact digitChar_isDigit h10
      · rw [if_pos h10]
        show digitsToNat [Nat.digitChar n] = n
        simp [digitsToNat, digitChar_toNat h10]
    · have hdiv : n / 10 < fuel := by
        have h1 : n / 10 < n := Nat.div_lt_self (by omega) (by omega)
        omega
      obtain ⟨ihd, ihv, ihn⟩ := natToDigitsAux_spec fuel (n / 10) hdiv
      rw [if_neg h10]
      refine ⟨?_, ?_, by simp⟩
      · intro c hc
        rcases List.mem_append.mp hc with hc | hc
        · exact ihd c hc
        · rcases List.mem_singleton.mp hc with rfl
          exact digitChar_isDigit (Nat.mod_lt n (by omega))
      · rw [digitsToNat_append_digit, ihv, digitChar_toNat (Nat.mod_lt n (by omega))]
        omega

theorem natToDigits_all_digits (n : Nat) : ∀ c ∈ natToDigits n, c.isDigit = true :=
  (natToDigitsAux_spec (n + 1) n (Nat.lt_succ_self n)).1

theorem digitsToNat_natToDigits (n : Nat) : digitsToNat (natToDigits n) = n :=
  (natToDigitsAux_spec (n + 1) n (Nat.lt_succ_self n)).2.1

theorem natToDigits_ne_nil (n : Nat) : natToDigits n ≠ [] :=
  (natToDigitsAux_spec (n + 1) n (Nat.lt_succ_self n)).2.2

/-- A decimal digit differs from any fixed non-digit character. -/
theorem digit_ne_of_not_digit {c a : Char} (hc : c.isDigit = true)
    (ha : a.isDigit = false) : c ≠ a := by
  intro e
  rw [e, ha] at hc
  exact Bool.false_ne_true hc

theorem not_ws_of_digit {c : Char} (hc : c.isDigit = true) : isJsWhitespace c = false := by
  rcases Bool.eq_false_or_eq_true (isJsWhitespace c) with h | h
  · exfalso
    simp only [isJsWhitespace, Bool.or_eq_true, decide_eq_true_eq] at h
    rcases h with ((((h | h) | h) | h) | h) | h <;> subst h <;>
      exact absurd hc (by decide)
  · exact h

theorem takeWhile_eq_self {α : Type} {p : α → Bool} :
    ∀ {l : List α}, (∀ a ∈ l, p a = true) → l.takeWhile p = l
  | [], _ => rfl
  | a :: l, h => by
    have ha := h a (List.mem_cons_self a l)
    have ih := takeWhile_eq_self (fun b hb => h b (List.mem_cons_of_mem a hb))
    simp [List.takeWhile_cons, ha, ih]

theorem parseIntCore_digits (m : Nat) :
    parseIntCore (natToDigits m) false = some (m : Int) := by
  unfold parseIntCore
  rw [takeWhile_eq_self (natToDigits_all_digits m)]
  simp [List.isEmpty_iff, natToDigits_ne_nil m, digitsToNat_natToDigits m]

theorem parseIntCore_digits_neg (m : Nat) :
    parseIntCore (natToDigits m) true = some (-(m : Int)) := by
  unfold parseIntCore
  rw [takeWhile_eq_self (natToDigits_all_digits m)]
  simp [List.isEmpty_iff, natToDigits_ne_nil m, digitsToNat_natToDigits m]

theorem string_mk_data (s : String) : String.mk s.data = s := rfl

theorem data_string_mk (l : List Char) : (String.mk l).data = l := rfl

/-- JavaScript parseInt inverts the decimal printing of any integer. -/
theorem jsParseInt10_intRepr (n : Int) : jsParseInt10 (intRepr n) = some n := by
  by_cases hn : n < 0
  · have hdata : (intRepr n).data = '-' :: natToDigits n.natAbs := by
      simp [intRepr, if_pos hn, String.data_append, data_string_mk]
    have hws : isJsWhitespace '-' = false := by decide
    have hstep : jsParseInt10 (intRepr n) = parseIntCore (natToDigits n.natAbs) true := by
      unfold jsParseInt10
      rw [hdata, List.dropWhile_cons, hws]
      simp only [Bool.false_eq_true, if_false, if_true]
    rw [hstep, parseIntCore_digits_neg]
    congr 1
    omega
  · have hdata : (intRepr n).data = natToDigits n.natAbs := by
      simp [intRepr, if_neg hn, data_string_mk]
    rcases hds : natToDigits n.natAbs with _ | ⟨d, ds⟩
    · exact absurd hds (natToDigits_ne_nil n.natAbs)
    · have hd : d.isDigit = true := by
        have hall := natToDigits_all_digits n.natAbs
        rw [hds] at hall
        exact hall d (List.mem_cons_self d ds)
      have hstep : jsParseInt10 (intRepr n) = parseIntCore (d :: ds) false := by
        unfold jsParseInt10
        rw [hdata, hds, List.dropWhile_cons, not_ws_of_digit hd]
        simp only [Bool.false_eq_true, if_false]
        show (if d = '-' then parseIntCore ds true
              else if d = '+' then parseIntCore ds false
              else parseIntCore (d :: ds) false) = parseIntCore (d :: ds) false
        rw [if_neg (digit_ne_of_not_digit hd (by decide) : ¬(d = '-')),
          if_neg (digit_ne_of_not_digit hd (by decide) : ¬(d = '+'))]
      rw [hstep, ← hds, parseIntCore_digits]
      congr 1
      omega

/-- Every character of the decimal printing of an integer is a digit or the
minus sign. -/
theorem intRepr_chars (n : Int) : ∀ c ∈ (intRepr n).data, c.isDigit = true ∨ c = '-' := by
  intro c hc
  by_cases hn : n < 0
  · rw [intRepr, if_pos hn, String.data_append, data_string_mk] at hc
    rcases List.mem_append.mp hc with hc | hc
    · exact Or.inr (List.mem_singleton.mp hc)
    · exact Or.inl (natToDigits_all_digits n.natAbs c hc)
  · rw [intRepr, if_neg hn, data_string_mk] at hc
    exact Or.inl (natToDigits_all_digits n.natAbs c hc)

theorem comma_not_mem_intRepr (n : Int) : ',' ∉ (intRepr n).data := by
  intro h
  rcases intRepr_chars n ',' h with h | h
  · exact absurd h (by decide)
  · exact absurd h (by decide)

theorem eq_not_mem_intRepr (n : Int) : '=' ∉ (intRepr n).data := by
  intro h
  rcases intRepr_chars n '=' h with h | h
  · exact absurd h (by decide)
  · exact absurd h (by decide)

/-! ### Characterization of the header parser -/

theorem getLast?_getD_cons {α : Type} :
    ∀ (l : List α) (x d : α), ((x :: l).getLast?).getD d = (l.getLast?).getD x
  | [], _, _ => rfl
  | y :: ys, x, d => by
    rw [List.getLast?_cons_cons, getLast?_getD_cons ys y d, getLast?_getD_cons ys y x]

theorem parseHeaderStep_signatures (scheme : String) (acc : WebhookParsedHeader)
    (tok : List Char) :
    (parseHeaderStep scheme acc tok).signatures
      = if (splitOnCharList '=' tok)[0]? = some scheme.data
        then acc.signatures ++ [(splitOnCharList '=' tok)[1]?.map String.mk]
        else acc.signatures := by
  unfold parseHeaderStep
  by_cases ht : (splitOnCharList '=' tok)[0]? = some ['t'] <;>
    by_cases hs : (splitOnCharList '=' tok)[0]? = some scheme.data
  · have hts : ['t'] = scheme.data := Option.some.inj (ht.symm.trans hs)
    simp [ht, hs, ← hts]
  · have hne : ¬(['t'] = scheme.data) := fun e => hs (by rw [ht, e])
    simp [ht, hs, hne]
  · have hne : ¬(scheme.data = ['t']) := fun e => ht (by rw [hs, e])
    simp [ht, hs, hne]
  · simp [ht, hs]

theorem parseHeaderStep_timestamp (scheme : String) (acc : WebhookParsedHeader)
    (tok : List Char) :
    (parseHeaderStep scheme acc tok).timestamp
      = if (splitOnCharList '=' tok)[0]? = some ['t']
        then jsParseIntOpt ((splitOnCharList '=' tok)[1]?.map String.mk)
        else acc.timestamp := by
  unfold parseHeaderStep
  by_cases ht : (splitOnCharList '=' tok)[0]? = some ['t'] <;>
    by_cases hs : (splitOnCharList '=' tok)[0]? = some scheme.data
  · have hts : ['t'] = scheme.data := Option.some.inj (ht.symm.trans hs)
    simp [ht, hs, ← hts]
  · have hne : ¬(['t'] = scheme.data) := fun e => hs (by rw [ht, e])
    simp [ht, hs, hne]
  · have hne : ¬(scheme.data = ['t']) := fun e => ht (by rw [hs, e])
    simp [ht, hs, hne]
  · simp [ht, hs]

theorem foldl_parseHeaderStep_signatures (scheme : String) :
    ∀ (toks : List (List Char)) (acc : WebhookParsedHeader),
      (toks.foldl (parseHeaderStep scheme) acc).signatures
        = acc.signatures
            ++ (toks.filter
                (fun tok => (splitOnCharList '=' tok)[0]? = some scheme.data)).map
              (fun tok => (splitOnCharList '=' tok)[1]?.map String.mk)
  | [], acc => by simp
  | tok :: rest, acc => by
    rw [List.foldl_cons, foldl_parseHeaderStep_signatures scheme rest,
      parseHeaderStep_signatures, List.filter_cons]
    by_cases hs : (splitOnCharList '=' tok)[0]? = some scheme.data
    · rw [if_pos hs, if_pos (by simpa using hs), List.map_cons]
      simp [List.append_assoc]
    · rw [if_neg hs, if_neg (by simpa using hs)]

theorem foldl_parseHeaderStep_timestamp (scheme : String) :
    ∀ (toks : List (List Char)) (acc : WebhookParsedHeader),
      (toks.foldl (parseHeaderStep scheme) acc).timestamp
        = (((toks.filter
              (fun tok => (splitOnCharList '=' tok)[0]? = some ['t'])).map
            (fun tok => jsParseIntOpt ((splitOnCharList '=' tok)[1]?.map String.mk))).getLast?).getD
            acc.timestamp
  | [], acc => by simp
  | tok :: rest, acc => by
    rw [List.foldl_cons, foldl_parseHeaderStep_timestamp scheme rest,
      parseHeaderStep_timestamp, List.filter_cons]
    by_cases ht : (splitOnCharList '=' tok)[0]? = some ['t']
    · rw [if_pos ht, if_pos (by simpa using ht), List.map_cons, getLast?_getD_cons]
    · rw [if_neg ht, if_neg (by simpa using ht)]

theorem parseHeader_signatures_eq (header scheme : String) :
    (parseHeader header scheme).signatures
      = ((splitOnCharList ',' header.data).filter
            (fun tok => (splitOnCharList '=' tok)[0]? = some scheme.data)).map
          (fun tok => (splitOnCharList '=' tok)[1]?.map String.mk) := by
  rw [parseHeader, foldl_parseHeaderStep_signatures]
  rfl

theorem parseHeader_timestamp_eq (header scheme : String) :
    (parseHeader header scheme).timestamp
      = ((((splitOnCharList ',' header.data).filter
              (fun tok => (splitOnCharList '=' tok)[0]? = some ['t'])).map
            (fun tok => jsParseIntOpt ((splitOnCharList '=' tok)[1]?.map String.mk))).getLast?).getD
          (some (-1)) := by
  rw [parseHeader, foldl_parseHeaderStep_timestamp]

/-- Parsing the exact two-token header produced by the test-header
generator, provided separators occur in neither the timestamp nor the
signature text. -/
theorem parseHeader_two_tokens (T S : String)
    (hT1 : ',' ∉ T.data) (hT2 : '=' ∉ T.data)
    (hS1 : ',' ∉ S.data) (hS2 : '=' ∉ S.data) :
    parseHeader ("t=" ++ T ++ "," ++ ("v1" ++ "=" ++ S)) "v1"
      = { signatures := [some S], timestamp := jsParseInt10 T } := by
  have hdata : ("t=" ++ T ++ "," ++ ("v1" ++ "=" ++ S)).data
      = ('t' :: '=' :: T.data) ++ ',' :: ('v' :: '1' :: '=' :: S.data) := by
    simp [String.data_append]
  have hxs : ',' ∉ 't' :: '=' :: T.data := by
    intro h
    rcases List.mem_cons.mp h with h | h
    · exact absurd h (by decide)
    rcases List.mem_cons.mp h with h | h
    · exact absurd h (by decide)
    · exact hT1 h
  have hys : ',' ∉ 'v' :: '1' :: '=' :: S.data := by
    intro h
    rcases List.mem_cons.mp h with h | h
    · exact absurd h (by decide)
    rcases List.mem_cons.mp h with h | h
    · exact absurd h (by decide)
    rcases List.mem_cons.mp h with h | h
    · exact absurd h (by decide)
    · exact hS1 h
  have hsplit : splitOnCharList ',' ("t=" ++ T ++ "," ++ ("v1" ++ "=" ++ S)).data
      = [('t' :: '=' :: T.data), ('v' :: '1' :: '=' :: S.data)] := by
    rw [hdata, splitOnCharList_append ',' _ _ hxs,
      splitOnCharList_eq_single ',' _ hys]
  have hkv1 : splitOnCharList '=' ('t' :: '=' :: T.data) = [['t'], T.data] := by
    have : ('t' :: '=' :: T.data) = ['t'] ++ '=' :: T.data := rfl
    rw [this, splitOnCharList_append '=' ['t'] T.data (by decide),
      splitOnCharList_eq_single '=' T.data hT2]
  have hkv2 : splitOnCharList '=' ('v' :: '1' :: '=' :: S.data)
      = [['v', '1'], S.data] := by
    have : ('v' :: '1' :: '=' :: S.data) = ['v', '1'] ++ '=' :: S.data := rfl
    rw [this, splitOnCharList_append '=' ['v', '1'] S.data (by decide),
      splitOnCharList_eq_single '=' S.data hS2]
  rw [parseHeader, hsplit]
  rw [List.foldl_cons, List.foldl_cons, List.foldl_nil]
  have hstep1 : parseHeaderStep "v1" { signatures := [], timestamp := some (-1) }
      ('t' :: '=' :: T.data)
      = { signatures := [], timestamp := jsParseInt10 T } := by
    simp only [parseHeaderStep]
    rw [hkv1]
    rfl
  have hstep2 : parseHeaderStep "v1" { signatures := [], timestamp := jsParseInt10 T }
      ('v' :: '1' :: '=' :: S.data)
      = { signatures := [some S], timestamp := jsParseInt10 T } := by
    simp only [parseHeaderStep]
    rw [hkv2]
    rfl
  rw [hstep1, hstep2]

/-! ### Characterization of the two verification entry points -/

theorem verifyHeader_eq (p h s : String) (tol : Int) (cp : StripeCryptoProvider)
    (now : Int) :
    verifyHeader p h s tol cp now
      = (if (parseHeader h EXPECTED_SCHEME).timestamp = some (-1) then
           .error .malformedHeader
         else if (parseHeader h EXPECTED_SCHEME).signatures.length = 0 then
           .error .noSignatures
         else if signatureFound (parseHeader h EXPECTED_SCHEME)
             (cp.computeHMACSignature
               (makeHMACContent p (parseHeader h EXPECTED_SCHEME)) s) = false then
           .error .signatureMismatch
         else if toleranceExceeded (parseHeader h EXPECTED_SCHEME) tol now = true then
           .error .timestampOutsideTolerance
         else .ok true) := by
  unfold verifyHeader parseEventDetails
  by_cases h1 : (parseHeader h EXPECTED_SCHEME).timestamp = some (-1)
  · simp [h1]
  · by_cases h2 : (parseHeader h EXPECTED_SCHEME).signatures.length = 0
    · simp [h1, h2]
    · simp only [h1, h2, if_false, ite_false, if_neg]
      unfold validateComputedSignature
      cases hb : signatureFound (parseHeader h EXPECTED_SCHEME)
          (cp.computeHMACSignature
            (makeHMACContent p (parseHeader h EXPECTED_SCHEME)) s)
      · simp [h1, h2, hb]
      · cases hc : toleranceExceeded (parseHeader h EXPECTED_SCHEME) tol now <;>
          simp [h1, h2, hb, hc]

theorem verifyHeaderAsync_eq (p h s : String) (tol : Int)
    (cp : StripeCryptoProvider) (now : Int) :
    verifyHeaderAsync p h s tol cp now
      = (if (parseHeader h EXPECTED_SCHEME).timestamp = some (-1) then
           .error .malformedHeader
         else if (parseHeader h EXPECTED_SCHEME).signatures.length = 0 then
           .error .noSignatures
         else if signatureFound (parseHeader h EXPECTED_SCHEME)
             (cp.computeHMACSignatureAsync
               (makeHMACContent p (parseHeader h EXPECTED_SCHEME)) s) = false then
           .error .signatureMismatch
         else if toleranceExceeded (parseHeader h EXPECTED_SCHEME) tol now = true then
           .error .timestampOutsideTolerance
         else .ok true) := by
  unfold verifyHeaderAsync parseEventDetails
  by_cases h1 : (parseHeader h EXPECTED_SCHEME).timestamp = some (-1)
  · simp [h1]
  · by_cases h2 : (parseHeader h EXPECTED_SCHEME).signatures.length = 0
    · simp [h1, h2]
    · simp only [h1, h2, if_false, ite_false, if_neg]
      unfold validateComputedSignature
      cases hb : signatureFound (parseHeader h EXPECTED_SCHEME)
          (cp.computeHMACSignatureAsync
            (makeHMACContent p (parseHeader h EXPECTED_SCHEME)) s)
      · simp [h1, h2, hb]
      · cases hc : toleranceExceeded (parseHeader h EXPECTED_SCHEME) tol now <;>
          simp [h1, h2, hb, hc]

theorem secureCompare_eq_true (e : String) (b : Option String) :
    secureCompare e b = true ↔ b = some e := by
  cases b with
  | none => simp [secureCompare]
  | some s => simp [secureCompare, eq_comm]

theorem signatureFound_iff (details : WebhookParsedHeader) (e : String) :
    signatureFound details e = true ↔ some e ∈ details.signatures := by
  unfold signatureFound
  rw [decide_eq_true_eq]
  constructor
  · intro hne
    have hfil : details.signatures.filter (secureCompare e) ≠ [] := by
      intro h0
      exact hne (by rw [h0]; rfl)
    rcases List.exists_mem_of_ne_nil _ hfil with ⟨b, hb⟩
    rcases List.mem_filter.mp hb with ⟨hbl, hbp⟩
    rw [(secureCompare_eq_true e b).mp hbp] at hbl
    exact hbl
  · intro hmem h0
    have hm : some e ∈ details.signatures.filter (secureCompare e) :=
      List.mem_filter.mpr ⟨hmem, (secureCompare_eq_true e (some e)).mpr rfl⟩
    rw [List.length_eq_zero.mp h0] at hm
    exact absurd hm (List.not_mem_nil _)

theorem toleranceExceeded_iff (details : WebhookParsedHeader) (tol now : Int) :
    toleranceExceeded details tol now = true
      ↔ 0 < tol ∧ ∃ t : Int, details.timestamp = some t ∧ now - t > tol := by
  unfold toleranceExceeded
  cases hts : details.timestamp with
  | none => simp [hts]
  | some t => simp [hts]

/-! ### The claims -/

/-- C2: the timestamp-expired error is raised by `verifyHeader` exactly when
the header parses past the structural checks (timestamp is not the -1
sentinel), some candidate signature equals the computed HMAC, the tolerance
is positive, and `now - timestamp > tolerance`; when the header parses and
no candidate equals the computed HMAC, the failure is the
signature-mismatch error even if the timestamp is also stale (signature
validity is checked first); and when a candidate matches but the window
test does not fire — in particular when the age equals the tolerance
exactly, or when the tolerance is not positive however old the timestamp —
verification succeeds. -/
theorem C2_expired_error_characterization (p h s : String) (tol : Int)
    (cp : StripeCryptoProvider) (now : Int) :
    (verifyHeader p h s tol cp now = .error .timestampOutsideTolerance
      ↔ ((parseHeader h EXPECTED_SCHEME).timestamp ≠ some (-1)
          ∧ some (cp.computeHMACSignature
                (makeHMACContent p (parseHeader h EXPECTED_SCHEME)) s)
              ∈ (parseHeader h EXPECTED_SCHEME).signatures
          ∧ 0 < tol
          ∧ ∃ t : Int, (parseHeader h EXPECTED_SCHEME).timestamp = some t
              ∧ now - t > tol))
    ∧ ((parseHeader h EXPECTED_SCHEME).timestamp ≠ some (-1) →
        (parseHeader h EXPECTED_SCHEME).signatures ≠ [] →
        some (cp.computeHMACSignature
            (makeHMACContent p (parseHeader h EXPECTED_SCHEME)) s)
          ∉ (parseHeader h EXPECTED_SCHEME).signatures →
        verifyHeader p h s tol cp now = .error .signatureMismatch)
    ∧ ((parseHeader h EXPECTED_SCHEME).timestamp ≠ some (-1) →
        some (cp.computeHMACSignature
            (makeHMACContent p (parseHeader h EXPECTED_SCHEME)) s)
          ∈ (parseHeader h EXPECTED_SCHEME).signatures →
        ¬(0 < tol ∧ ∃ t : Int, (parseHeader h EXPECTED_SCHEME).timestamp = some t
            ∧ now - t > tol) →
        verifyHeader p h s tol cp now = .ok true) := by
  have hv := verifyHeader_eq p h s tol cp now
  refine ⟨⟨?_, ?_⟩, ?_, ?_⟩
  · intro he
    by_cases h1 : (parseHeader h EXPECTED_SCHEME).timestamp = some (-1)
    · rw [hv, if_pos h1] at he
      exact absurd he (by simp)
    by_cases h2 : (parseHeader h EXPECTED_SCHEME).signatures.length = 0
    · rw [hv, if_neg h1, if_pos h2] at he
      exact absurd he (by simp)
    cases hb : signatureFound (parseHeader h EXPECTED_SCHEME)
        (cp.computeHMACSignature (makeHMACContent p (parseHeader h EXPECTED_SCHEME)) s)
    · rw [hv, if_neg h1, if_neg h2, if_pos hb] at he
      exact absurd he (by simp)
    cases hc : toleranceExceeded (parseHeader h EXPECTED_SCHEME) tol now
    · rw [hv, if_neg h1, if_neg h2, if_neg (by simp [hb]), if_neg (by simp [hc])] at he
      exact absurd he (by simp)
    · exact ⟨h1, (signatureFound_iff _ _).mp hb,
        ((toleranceExceeded_iff _ tol now).mp hc).1,
        ((toleranceExceeded_iff _ tol now).mp hc).2⟩
  · rintro ⟨h1, hmem, htolpos, t, hts, hgt⟩
    have hb := (signatureFound_iff _ _).mpr hmem
    have hc := (toleranceExceeded_iff _ tol now).mpr ⟨htolpos, t, hts, hgt⟩
    have h2 : ¬((parseHeader h EXPECTED_SCHEME).signatures.length = 0) := by
      intro h0
      rw [List.length_eq_zero.mp h0] at hmem
      exact absurd hmem (List.not_mem_nil _)
    rw [hv, if_neg h1, if_neg h2, if_neg (by simp [hb]), if_pos hc]
  · intro h1 hne hnm
    have hb : signatureFound (parseHeader h EXPECTED_SCHEME)
        (cp.computeHMACSignature (makeHMACContent p (parseHeader h EXPECTED_SCHEME)) s)
          = false := by
      cases hbb : signatureFound (parseHeader h EXPECTED_SCHEME)
          (cp.computeHMACSignature (makeHMACContent p (parseHeader h EXPECTED_SCHEME)) s)
      · rfl
      · exact absurd ((signatureFound_iff _ _).mp hbb) hnm
    have h2 : ¬((parseHeader h EXPECTED_SCHEME).signatures.length = 0) :=
      fun h0 => hne (List.length_eq_zero.mp h0)
    rw [hv, if_neg h1, if_neg h2, if_pos hb]
  · intro h1 hmem hnt
    have hb := (signatureFound_iff _ _).mpr hmem
    have hc : toleranceExceeded (parseHeader h EXPECTED_SCHEME) tol now = false := by
      cases hcc : toleranceExceeded (parseHeader h EXPECTED_SCHEME) tol now
      · rfl
      · exact absurd ((toleranceExceeded_iff _ tol now).mp hcc) hnt
    have h2 : ¬((parseHeader h EXPECTED_SCHEME).signatures.length = 0) := by
      intro h0
      rw [List.length_eq_zero.mp h0] at hmem
      exact absurd hmem (List.not_mem_nil _)
    rw [hv, if_neg h1, if_neg h2, if_neg (by simp [hb]), if_neg (by simp [hc])]

/-- Witness for C2: at `now = 1000`, `tolerance = 300`, a header stamped 699
(age 301) fails with the timestamp-expired error, one stamped 700 (age
exactly 300) succeeds, and a stale header with a wrong signature fails with
the signature-mismatch error. -/
theorem C2_expired_error_characterization_witness :
    verifyHeader "p" "t=699,v1=sig" "k" 300 cpConstSig 1000
        = .error .timestampOutsideTolerance
    ∧ verifyHeader "p" "t=700,v1=sig" "k" 300 cpConstSig 1000 = .ok true
    ∧ verifyHeader "p" "t=0,v1=bad" "k" 300 cpConstSig 1000000
        = .error .signatureMismatch := by
  refine ⟨?_, ?_, ?_⟩
  · exact (C2_expired_error_characterization "p" "t=699,v1=sig" "k" 300 cpConstSig
      1000).1.mpr ⟨by decide, by decide, by decide, ⟨699, by decide, by decide⟩⟩
  · refine (C2_expired_error_characterization "p" "t=700,v1=sig" "k" 300 cpConstSig
      1000).2.2 (by decide) (by decide) ?_
    rintro ⟨h0, t, ht, hgt⟩
    have e : (parseHeader "t=700,v1=sig" EXPECTED_SCHEME).timestamp = some 700 := by
      decide
    rw [e] at ht
    have : (700 : Int) = t := Option.some.inj ht
    omega
  · exact (C2_expired_error_characterization "p" "t=0,v1=bad" "k" 300 cpConstSig
      1000000).2.1 (by decide) (by decide) (by decide)

/-- C3: a parsed timestamp equal to the -1 sentinel makes `verifyHeader`
fail with the malformed-header error; a timestamp other than the sentinel
together with an empty candidate list makes it fail with the distinct
no-signatures error; and in both cases the outcome is identical for every
crypto provider, i.e. the failure does not depend on
`computeHMACSignature`, which captures that it occurs before any HMAC is
computed. -/
theorem C3_structural_failures (p h s : String) (tol : Int)
    (cp cp2 : StripeCryptoProvider) (now : Int) :
    ((parseHeader h EXPECTED_SCHEME).timestamp = some (-1) →
      verifyHeader p h s tol cp now = .error .malformedHeader)
    ∧ ((parseHeader h EXPECTED_SCHEME).timestamp ≠ some (-1) →
        (parseHeader h EXPECTED_SCHEME).signatures = [] →
        verifyHeader p h s tol cp now = .error .noSignatures)
    ∧ (((parseHeader h EXPECTED_SCHEME).timestamp = some (-1)
          ∨ (parseHeader h EXPECTED_SCHEME).signatures = []) →
        verifyHeader p h s tol cp now = verifyHeader p h s tol cp2 now) := by
  refine ⟨?_, ?_, ?_⟩
  · intro h1
    rw [verifyHeader_eq p h s tol cp now, if_pos h1]
  · intro h1 h2
    rw [verifyHeader_eq p h s tol cp now, if_neg h1, if_pos (by rw [h2]; rfl)]
  · intro hor
    by_cases h1 : (parseHeader h EXPECTED_SCHEME).timestamp = some (-1)
    · rw [verifyHeader_eq p h s tol cp now, if_pos h1,
        verifyHeader_eq p h s tol cp2 now, if_pos h1]
    · have h2 : (parseHeader h EXPECTED_SCHEME).signatures = [] := by
        rcases hor with h | h
        · exact absurd h h1
        · exact h
      rw [verifyHeader_eq p h s tol cp now, if_neg h1, if_pos (by rw [h2]; rfl),
        verifyHeader_eq p h s tol cp2 now, if_neg h1, if_pos (by rw [h2]; rfl)]

/-- Witness for C3: a header without any `t=` pair fails as malformed, and a
header with a timestamp but no `v1` token fails with the no-signatures
error. -/
theorem C3_structural_failures_witness :
    verifyHeader "p" "v1=deadbeef" "k" 0 cpConstSig 5 = .error .malformedHeader
    ∧ verifyHeader "p" "t=5" "k" 0 cpConstSig 5 = .error .noSignatures :=
  ⟨(C3_structural_failures "p" "v1=deadbeef" "k" 0 cpConstSig cpConstSig 5).1
      (by decide),
    (C3_structural_failures "p" "t=5" "k" 0 cpConstSig cpConstSig 5).2.1
      (by decide) (by decide)⟩

/-- C4: `parseHeader` splits the header on "," and scans the tokens: the
candidate list collects, in encounter order, the value (`kv[1]`) of every
token whose key (`kv[0]`) equals the expected scheme; the timestamp is the
parsed value of the last token whose key is "t" (the last occurrence wins),
or the -1 sentinel when there is none; tokens with any other key contribute
nothing; and the header "t=1614556800,v1=deadbeef" with scheme "v1" parses
to timestamp 1614556800 with the single signature "deadbeef". -/
theorem C4_parseHeader_scan (header scheme : String) :
    (parseHeader header scheme).signatures
      = ((splitOnCharList ',' header.data).filter
            (fun tok => (splitOnCharList '=' tok)[0]? = some scheme.data)).map
          (fun tok => (splitOnCharList '=' tok)[1]?.map String.mk)
    ∧ (parseHeader header scheme).timestamp
      = ((((splitOnCharList ',' header.data).filter
              (fun tok => (splitOnCharList '=' tok)[0]? = some ['t'])).map
            (fun tok =>
              jsParseIntOpt ((splitOnCharList '=' tok)[1]?.map String.mk))).getLast?).getD
          (some (-1))
    ∧ parseHeader "t=1614556800,v1=deadbeef" "v1"
      = { signatures := [some "deadbeef"], timestamp := some 1614556800 } :=
  ⟨parseHeader_signatures_eq header scheme, parseHeader_timestamp_eq header scheme,
    by decide⟩

/-- Counterexample against C5: in the token "v1=abc=def" the recorded value
is "abc", the segment between the first and second "=", and not the full
remainder "abc=def" after the first "=". -/
theorem C5_counterexample :
    (parseHeader "t=1,v1=abc=def" "v1").signatures = [some "abc"]
    ∧ some "abc=def" ∉ (parseHeader "t=1,v1=abc=def" "v1").signatures := by
  decide

/-- C5 amended: each comma-separated token is split on EVERY "=" (not only
the first), and the value recorded for a token whose key equals the scheme
is `kv[1]`, the segment strictly between the first and the second "=". -/
theorem C5_value_is_second_segment (scheme : String) (accum : WebhookParsedHeader)
    (tok : List Char)
    (hkey : (splitOnCharList '=' tok)[0]? = some scheme.data) :
    (parseHeaderStep scheme accum tok).signatures
      = accum.signatures ++ [(splitOnCharList '=' tok)[1]?.map String.mk] := by
  rw [parseHeaderStep_signatures, if_pos hkey]

/-- Witness for C5 (amended): processing the token "v1=abc=def" under
scheme "v1" records exactly "abc". -/
theorem C5_value_is_second_segment_witness :
    (parseHeaderStep "v1" { signatures := [], timestamp := some (-1) }
        ("v1=abc=def".data)).signatures = [some "abc"] := by
  rw [C5_value_is_second_segment "v1" _ _ (by decide)]
  decide

/-- Counterexample against C6: the header "t=abc,v1=sig" has a `t=` value
that fails base-10 integer parsing, yet verification does not fail with the
malformed-header error — with a provider computing "sig" it succeeds
outright. -/
theorem C6_counterexample :
    verifyHeader "p" "t=abc,v1=sig" "k" 300 cpConstSig 1000 = .ok true
    ∧ verifyHeader "p" "t=abc,v1=sig" "k" 300 cpConstSig 1000
        ≠ .error .malformedHeader := by
  have hok : verifyHeader "p" "t=abc,v1=sig" "k" 300 cpConstSig 1000 = .ok true := rfl
  refine ⟨hok, ?_⟩
  rw [hok]
  simp

/-- C6 amended: a `t=` value that fails integer parsing yields a NaN
timestamp, which is not the -1 sentinel, so verification does not fail with
the malformed-header error; the NaN propagates into the HMAC content as the
text "NaN", the timestamp-expired error can never fire (a NaN age compares
false against the tolerance), and verification succeeds exactly as usual on
a matching candidate. -/
theorem C6_nan_timestamp (p h s : String) (tol : Int) (cp : StripeCryptoProvider)
    (now : Int)
    (hts : (parseHeader h EXPECTED_SCHEME).timestamp = none)
    (hne : (parseHeader h EXPECTED_SCHEME).signatures ≠ []) :
    verifyHeader p h s tol cp now ≠ .error .malformedHeader
    ∧ verifyHeader p h s tol cp now ≠ .error .timestampOutsideTolerance
    ∧ makeHMACContent p (parseHeader h EXPECTED_SCHEME) = "NaN" ++ "." ++ p
    ∧ (some (cp.computeHMACSignature
          (makeHMACContent p (parseHeader h EXPECTED_SCHEME)) s)
        ∈ (parseHeader h EXPECTED_SCHEME).signatures →
        verifyHeader p h s tol cp now = .ok true) := by
  have h1 : ¬((parseHeader h EXPECTED_SCHEME).timestamp = some (-1)) := by
    rw [hts]
    simp
  have h2 : ¬((parseHeader h EXPECTED_SCHEME).signatures.length = 0) :=
    fun h0 => hne (List.length_eq_zero.mp h0)
  have hcontent : makeHMACContent p (parseHeader h EXPECTED_SCHEME)
      = "NaN" ++ "." ++ p := by
    rw [makeHMACContent, hts]
    rfl
  have hcnone : toleranceExceeded (parseHeader h EXPECTED_SCHEME) tol now = false := by
    unfold toleranceExceeded
    rw [hts]
    simp
  refine ⟨?_, ?_, hcontent, ?_⟩
  · rw [verifyHeader_eq p h s tol cp now, if_neg h1, if_neg h2]
    cases hbb : signatureFound (parseHeader h EXPECTED_SCHEME)
        (cp.computeHMACSignature (makeHMACContent p (parseHeader h EXPECTED_SCHEME)) s)
    · simp
    · simp [hcnone]
  · rw [verifyHeader_eq p h s tol cp now, if_neg h1, if_neg h2]
    cases hbb : signatureFound (parseHeader h EXPECTED_SCHEME)
        (cp.computeHMACSignature (makeHMACContent p (parseHeader h EXPECTED_SCHEME)) s)
    · simp
    · simp [hcnone]
  · intro hmem
    have hb := (signatureFound_iff _ _).mpr hmem
    rw [verifyHeader_eq p h s tol cp now, if_neg h1, if_neg h2,
      if_neg (by simp [hb]), if_neg (by simp [hcnone])]

/-- Witness for C6 (amended): with the unparseable timestamp text "abc" the
HMAC content starts with "NaN" and verification succeeds on the matching
candidate. -/
theorem C6_nan_timestamp_witness :
    verifyHeader "p" "t=abc,v1=sig" "k" 3 cpConstSig 99 = .ok true
    ∧ makeHMACContent "p" (parseHeader "t=abc,v1=sig" EXPECTED_SCHEME)
        = "NaN" ++ "." ++ "p" := by
  obtain ⟨-, -, hc, hsucc⟩ :=
    C6_nan_timestamp "p" "t=abc,v1=sig" "k" 3 cpConstSig 99 (by decide) (by decide)
  exact ⟨hsucc (by decide), hc⟩

/-- Counterexample against C7: in the header "t=0,v1=bad,v1=sig" the second
candidate equals the computed HMAC, yet `verifyHeader` does not succeed at
`now = 1000000` with tolerance 300 — the stale timestamp makes it fail with
the timestamp-expired error. -/
theorem C7_counterexample :
    some (cpConstSig.computeHMACSignature
        (makeHMACContent "p" (parseHeader "t=0,v1=bad,v1=sig" EXPECTED_SCHEME)) "k")
      ∈ (parseHeader "t=0,v1=bad,v1=sig" EXPECTED_SCHEME).signatures
    ∧ verifyHeader "p" "t=0,v1=bad,v1=sig" "k" 300 cpConstSig 1000000
        = .error .timestampOutsideTolerance :=
  ⟨by decide, rfl⟩

/-- C7 amended: whenever any candidate of the parsed header equals the
computed HMAC — irrespective of its position and of how many other
candidates mismatch — `verifyHeader` does not fail with the
signature-mismatch error; and provided additionally that the timestamp is
not the -1 sentinel and the timestamp-window test does not fire, it
returns true. -/
theorem C7_any_candidate_matches (p h s : String) (tol : Int)
    (cp : StripeCryptoProvider) (now : Int)
    (hmem : some (cp.computeHMACSignature
        (makeHMACContent p (parseHeader h EXPECTED_SCHEME)) s)
      ∈ (parseHeader h EXPECTED_SCHEME).signatures) :
    verifyHeader p h s tol cp now ≠ .error .signatureMismatch
    ∧ ((parseHeader h EXPECTED_SCHEME).timestamp ≠ some (-1) →
        toleranceExceeded (parseHeader h EXPECTED_SCHEME) tol now = false →
        verifyHeader p h s tol cp now = .ok true) := by
  have hb := (signatureFound_iff _ _).mpr hmem
  have h2 : ¬((parseHeader h EXPECTED_SCHEME).signatures.length = 0) := by
    intro h0
    rw [List.length_eq_zero.mp h0] at hmem
    exact absurd hmem (List.not_mem_nil _)
  constructor
  · by_cases h1 : (parseHeader h EXPECTED_SCHEME).timestamp = some (-1)
    · rw [verifyHeader_eq p h s tol cp now, if_pos h1]
      simp
    · rw [verifyHeader_eq p h s tol cp now, if_neg h1, if_neg h2,
        if_neg (by simp [hb])]
      cases hc : toleranceExceeded (parseHeader h EXPECTED_SCHEME) tol now
      · simp
      · simp
  · intro h1 hc
    rw [verifyHeader_eq p h s tol cp now, if_neg h1, if_neg h2,
      if_neg (by simp [hb]), if_neg (by simp [hc])]

/-- Witness for C7 (amended): the matching second candidate makes
verification succeed when the timestamp is within the window. -/
theorem C7_any_candidate_matches_witness :
    verifyHeader "p" "t=0,v1=bad,v1=sig" "k" 300 cpConstSig 100 = .ok true :=
  (C7_any_candidate_matches "p" "t=0,v1=bad,v1=sig" "k" 300 cpConstSig 100
    (by decide)).2 (by decide) (by decide)

/-- C8: when the crypto provider's synchronous and asynchronous HMAC
methods compute the same function, `verifyHeader` and `verifyHeaderAsync`
agree on every payload, header, secret, tolerance and clock reading — same
success value and same error kind. -/
theorem C8_sync_async_equivalent (p h s : String) (tol : Int)
    (cp : StripeCryptoProvider) (now : Int)
    (hfun : cp.computeHMACSignature = cp.computeHMACSignatureAsync) :
    verifyHeader p h s tol cp now = verifyHeaderAsync p h s tol cp now := by
  rw [verifyHeader_eq p h s tol cp now, verifyHeaderAsync_eq p h s tol cp now, hfun]

/-- Witness for C8: a provider whose two methods are the same function. -/
theorem C8_sync_async_equivalent_witness :
    verifyHeader "p" "t=0,v1=sig" "k" 0 cpConstSig 5
      = verifyHeaderAsync "p" "t=0,v1=sig" "k" 0 cpConstSig 5 :=
  C8_sync_async_equivalent "p" "t=0,v1=sig" "k" 0 cpConstSig 5 rfl

/-- Counterexample against C10: passing the negative tolerance -1 through
`constructEvent` disables the replay-window check — a header whose
timestamp is 1000000 seconds old is accepted — so disabling the check does
not require calling `verifyHeader` directly. Passing 0, by contrast, is
replaced by the default 300 and the same stale header is rejected. -/
theorem C10_counterexample :
    constructEvent "p" "t=0,v1=sig" "k" (some (-1)) cpConstSig 1000000 = .ok "p"
    ∧ constructEvent "p" "t=0,v1=sig" "k" (some 0) cpConstSig 1000000
        = .error .timestampOutsideTolerance :=
  ⟨rfl, rfl⟩

/-- C10 amended: `constructEvent` and `constructEventAsync` pass
`tolerance || DEFAULT_TOLERANCE` to the verifier, so the falsy tolerances —
null/undefined (modelled as `none`) and 0 — are replaced by 300 and the
replay-window check cannot be disabled by passing 0; but every nonzero
tolerance, including a negative one (which disables the check), passes
through the wrappers unchanged. -/
theorem C10_tolerance_defaulting (p h s : String) (tolerance : Option Int)
    (cp : StripeCryptoProvider) (now : Int) :
    (constructEvent p h s tolerance cp now
        = match verifyHeader p h s (jsOrNum tolerance DEFAULT_TOLERANCE) cp now with
          | .error e => .error e
          | .ok _ => .ok p)
    ∧ (constructEventAsync p h s tolerance cp now
        = match verifyHeaderAsync p h s (jsOrNum tolerance DEFAULT_TOLERANCE) cp now with
          | .error e => .error e
          | .ok _ => .ok p)
    ∧ jsOrNum none DEFAULT_TOLERANCE = 300
    ∧ jsOrNum (some 0) DEFAULT_TOLERANCE = 300
    ∧ (∀ t : Int, t ≠ 0 → jsOrNum (some t) DEFAULT_TOLERANCE = t) := by
  refine ⟨rfl, rfl, rfl, rfl, ?_⟩
  intro t ht
  simp [jsOrNum, ht]

/-- Witness for C10 (amended): the truthy value -1 passes through the
defaulting untouched. -/
theorem C10_tolerance_defaulting_witness :
    jsOrNum (some (-1)) DEFAULT_TOLERANCE = -1 :=
  (C10_tolerance_defaulting "p" "t=0,v1=sig" "k" (some (-1)) cpConstSig
    0).2.2.2.2 (-1) (by decide)

/-- Counterexample against C1: the round trip fails at timestamp -1 (the
generated header carries `t=-1`, which the verifier rejects as malformed),
and it also fails for a deterministic backend, shared by both sides, whose
output contains a comma (the generated header no longer parses back into
the full signature). -/
theorem C1_counterexample :
    verifyHeader "p"
        (generateTestHeaderString
          { timestamp := -1, payload := "p", secret := "k",
            cryptoProvider := cpConstSig } 1000) "k" 0 cpConstSig 1000
      = .error .malformedHeader
    ∧ verifyHeader "p"
        (generateTestHeaderString
          { timestamp := 5, payload := "p", secret := "k",
            cryptoProvider := cpCommaSig } 1000) "k" 0 cpCommaSig 1000
      = .error .signatureMismatch :=
  ⟨rfl, rfl⟩

/-- C1 amended: the round trip holds for every timestamp, payload and
secret provided the effective timestamp (the given one, or the clock
reading when the given one is the falsy 0) is not the -1 sentinel and the
deterministic backend shared by both sides emits signatures free of the
separator characters "," and "=" (as hex-encoded HMAC output is): verifying
the generated header with tolerance 0 returns true at any verification
time. -/
theorem C1_roundtrip (ts : Int) (payload secret : String)
    (cp : StripeCryptoProvider) (now now2 : Int)
    (hsig : ∀ data sec, ',' ∉ (cp.computeHMACSignature data sec).data
        ∧ '=' ∉ (cp.computeHMACSignature data sec).data)
    (hts : (if ts = 0 then now else ts) ≠ -1) :
    verifyHeader payload
        (generateTestHeaderString
          { timestamp := ts, payload := payload, secret := secret,
            cryptoProvider := cp } now) secret 0 cp now2
      = .ok true := by
  have hgen : generateTestHeaderString
      { timestamp := ts, payload := payload, secret := secret, cryptoProvider := cp }
        now
      = "t=" ++ intRepr (if ts = 0 then now else ts) ++ ","
          ++ ("v1" ++ "="
            ++ cp.computeHMACSignature
              (intRepr (if ts = 0 then now else ts) ++ "." ++ payload) secret) := rfl
  have hparse : parseHeader ("t=" ++ intRepr (if ts = 0 then now else ts) ++ ","
        ++ ("v1" ++ "="
          ++ cp.computeHMACSignature
            (intRepr (if ts = 0 then now else ts) ++ "." ++ payload) secret))
      EXPECTED_SCHEME
      = { signatures := [some (cp.computeHMACSignature
            (intRepr (if ts = 0 then now else ts) ++ "." ++ payload) secret)],
          timestamp := some (if ts = 0 then now else ts) } := by
    show parseHeader _ "v1" = _
    rw [parseHeader_two_tokens _ _ (comma_not_mem_intRepr _) (eq_not_mem_intRepr _)
      (hsig _ _).1 (hsig _ _).2, jsParseInt10_intRepr]
  rw [hgen, verifyHeader_eq, hparse]
  have hcontent : makeHMACContent payload
      { signatures := [some (cp.computeHMACSignature
          (intRepr (if ts = 0 then now else ts) ++ "." ++ payload) secret)],
        timestamp := some (if ts = 0 then now else ts) }
      = intRepr (if ts = 0 then now else ts) ++ "." ++ payload := rfl
  rw [hcontent]
  rw [if_neg (fun e => hts (Option.some.inj e)), if_neg (by simp),
    if_neg (by rw [(signatureFound_iff _ _).mpr (List.mem_singleton.mpr rfl)]; simp),
    if_neg (by simp [toleranceExceeded])]

/-- Witness for C1 (amended): the round trip at timestamp 5 with a
comma-free constant backend. -/
theorem C1_roundtrip_witness :
    verifyHeader "p"
        (generateTestHeaderString
          { timestamp := 5, payload := "p", secret := "k",
            cryptoProvider := cpConstSig } 1000) "k" 0 cpConstSig 2000
      = .ok true :=
  C1_roundtrip 5 "p" "k" cpConstSig 1000 2000
    (fun _ _ => ⟨show ',' ∉ ("sig" : String).data by decide,
      show '=' ∉ ("sig" : String).data by decide⟩) (by decide)

end Webhooks
